import Mathlib

/-!
Verification of the Terminator Python SDK client (`desktop_use/client.py`,
`desktop_use/models.py`, `desktop_use/exceptions.py`).

The embedding models:
- Python dynamic argument values (`PyVal`) so that `isinstance` checks in
  `Locator.timeout` / `Locator.locator` / `DesktopUseClient.locator` are faithful;
- the `Locator` value class (fields `_client`, `_selector_chain`, `_timeout_ms`);
- a small object heap (`List Locator`, references are indices, method calls
  allocate a fresh index) so that object identity and absence of mutation are
  expressible;
- the request dataclasses from `models.py` / `client.py` and their `asdict`
  serialization with the None-filtering `dict_factory` used in `_make_request`;
- `_make_request` itself, over an abstracted transport outcome (HTTP status,
  body message, connection failure), mirroring its branch structure.

Exceptions are modelled as an error type returned in `Except`; a call that can
issue HTTP POSTs records them, so that "no request was sent" is expressible.
-/

/-- Python exception values raised by the SDK (`exceptions.py` plus builtins). -/
inductive PyError where
  | valueError (msg : String)
  | typeError (msg : String)
  | apiError (msg : String) (status_code : Option Nat)
  | connectionError (msg : String)
  | attributeError
deriving DecidableEq, Repr

/-- Python values that may be passed to the dynamically-typed SDK entry points:
a string, an int, `None`, or some other non-int non-string object. -/
inductive PyVal where
  | vStr (s : String)
  | vInt (n : Int)
  | vNone
  | vOther
deriving DecidableEq, Repr

/-- JSON values occurring in the SDK request dictionaries: `null`, ints,
strings, and lists of strings (the `selector_chain`). -/
inductive JsonVal where
  | null
  | int (n : Int)
  | str (s : String)
  | strList (xs : List String)
deriving DecidableEq, Repr

/-- `Optional[int]` rendered into the `asdict` dictionary. -/
def optIntJson : Option Int → JsonVal
  | none => JsonVal.null
  | some n => JsonVal.int n

/-- Python `v is not None` on a dictionary value. -/
def isNotNone : JsonVal → Bool
  | JsonVal.null => false
  | _ => true

/-- The `dict_factory` of `_make_request`:
`lambda x: {k: v for (k, v) in x if v is not None}` — drops None-valued keys. -/
def filterNone (xs : List (String × JsonVal)) : List (String × JsonVal) :=
  xs.filter (fun p => isNotNone p.2)

/-- The `Locator` class: `_client` (an opaque reference to the
`DesktopUseClient`), `_selector_chain : List[str]`, `_timeout_ms : Optional[int]`. -/
structure Locator where
  client : Nat
  selector_chain : List String
  timeout_ms : Option Int
deriving DecidableEq, Repr

/-- Result of calling an SDK method: the returned value or raised exception,
together with the list of endpoints POSTed to the server during the call. -/
structure CallResult (α : Type) where
  result : Except PyError α
  posts : List String
deriving Repr

/-- `DesktopUseClient.locator(selector)`: raises ValueError unless `selector`
is a non-empty `str`; otherwise returns `Locator(self, [selector])` (timeout
defaults to None). No HTTP request is made. -/
def DesktopUseClient.locator (client : Nat) (selector : PyVal) : CallResult Locator :=
  { result :=
      match selector with
      | PyVal.vStr s =>
          if s = "" then
            Except.error (PyError.valueError "Initial selector must be a non-empty string.")
          else
            Except.ok { client := client, selector_chain := [s], timeout_ms := none }
      | _ => Except.error (PyError.valueError "Initial selector must be a non-empty string.")
  , posts := [] }

/-- `Locator.timeout(ms)`: raises ValueError unless `ms` is a positive `int`;
otherwise returns `Locator(self._client, self._selector_chain, ms)`.
No HTTP request is made. -/
def Locator.timeout (l : Locator) (ms : PyVal) : CallResult Locator :=
  { result :=
      match ms with
      | PyVal.vInt n =>
          if n ≤ 0 then
            Except.error (PyError.valueError "Timeout must be a positive integer in milliseconds.")
          else
            Except.ok { client := l.client, selector_chain := l.selector_chain, timeout_ms := some n }
      | _ => Except.error (PyError.valueError "Timeout must be a positive integer in milliseconds.")
  , posts := [] }

/-- `Locator.locator(selector)`: raises ValueError unless `selector` is a
non-empty `str`; otherwise returns
`Locator(self._client, self._selector_chain + [selector], self._timeout_ms)`.
No HTTP request is made. -/
def Locator.locator (l : Locator) (selector : PyVal) : CallResult Locator :=
  { result :=
      match selector with
      | PyVal.vStr s =>
          if s = "" then
            Except.error (PyError.valueError "Nested selector must be a non-empty string.")
          else
            Except.ok { client := l.client
                      , selector_chain := l.selector_chain ++ [s]
                      , timeout_ms := l.timeout_ms }
      | _ => Except.error (PyError.valueError "Nested selector must be a non-empty string.")
  , posts := [] }

/-- Heap-level view of `locator.locator(s)`: the heap is the list of all
`Locator` objects ever constructed, a reference is an index. On success the
body runs `Locator(...)`, which allocates a fresh object; on a raised
ValueError nothing is allocated. `none` means the reference is dangling
(never produced by the API). -/
def heapLocatorCall (h : List Locator) (r : Nat) (s : PyVal) :
    Option (List Locator × Except PyError Nat) :=
  h[r]?.map fun d =>
    match (Locator.locator d s).result with
    | Except.ok d' => (h ++ [d'], Except.ok h.length)
    | Except.error e => (h, Except.error e)

/-- Heap-level view of `locator.timeout(ms)`, as in `heapLocatorCall`. -/
def heapTimeoutCall (h : List Locator) (r : Nat) (ms : PyVal) :
    Option (List Locator × Except PyError Nat) :=
  h[r]?.map fun d =>
    match (Locator.timeout d ms).result with
    | Except.ok d' => (h ++ [d'], Except.ok h.length)
    | Except.error e => (h, Except.error e)

/-- C2: `Locator.locator(s)` on a non-empty string returns a Locator whose
chain is the parent's chain with `s` appended and whose timeout is inherited
from the parent; no HTTP request is issued. -/
theorem locator_appends_and_inherits (l : Locator) (s : String) (hs : s ≠ "") :
    (Locator.locator l (PyVal.vStr s)).result =
      Except.ok { client := l.client
                , selector_chain := l.selector_chain ++ [s]
                , timeout_ms := l.timeout_ms } ∧
    (Locator.locator l (PyVal.vStr s)).posts = [] := by
  constructor
  · simp [Locator.locator, hs]
  · rfl

theorem locator_appends_and_inherits_witness :
    ("button" ≠ "") ∧
    ((Locator.locator { client := 0, selector_chain := ["window"], timeout_ms := some 100 }
        (PyVal.vStr "button")).result =
      Except.ok { client := 0, selector_chain := ["window", "button"], timeout_ms := some 100 } ∧
     (Locator.locator { client := 0, selector_chain := ["window"], timeout_ms := some 100 }
        (PyVal.vStr "button")).posts = []) :=
  ⟨by decide, locator_appends_and_inherits _ "button" (by decide)⟩

/-- C3: `Locator.timeout(ms)` for positive integer `ms` returns a Locator with
the same selector chain and timeout `ms`; no HTTP request is issued. -/
theorem timeout_sets_timeout_keeps_chain (l : Locator) (ms : Int) (hm : 0 < ms) :
    (Locator.timeout l (PyVal.vInt ms)).result =
      Except.ok { client := l.client, selector_chain := l.selector_chain, timeout_ms := some ms } ∧
    (Locator.timeout l (PyVal.vInt ms)).posts = [] := by
  constructor
  · have : ¬ ms ≤ 0 := not_le.mpr hm
    simp [Locator.timeout, this]
  · rfl

theorem timeout_sets_timeout_keeps_chain_witness :
    (0 : Int) < 5000 ∧
    ((Locator.timeout { client := 0, selector_chain := ["window"], timeout_ms := none }
        (PyVal.vInt 5000)).result =
      Except.ok { client := 0, selector_chain := ["window"], timeout_ms := some 5000 } ∧
     (Locator.timeout { client := 0, selector_chain := ["window"], timeout_ms := none }
        (PyVal.vInt 5000)).posts = []) :=
  ⟨by decide, timeout_sets_timeout_keeps_chain _ 5000 (by decide)⟩

/-- C1: at the heap level, a successful `locator.locator(s)` or
`locator.timeout(ms)` call leaves the receiver object exactly as it was
(same selector chain and timeout) and returns a freshly allocated, distinct
reference. -/
theorem chaining_never_mutates (h : List Locator) (r : Nat) (d : Locator) (s ms : PyVal)
    (h' h'' : List Locator) (r' r'' : Nat) (hr : h[r]? = some d) :
    (heapLocatorCall h r s = some (h', Except.ok r') → h'[r]? = some d ∧ r' ≠ r) ∧
    (heapTimeoutCall h r ms = some (h'', Except.ok r'') → h''[r]? = some d ∧ r'' ≠ r) := by
  have hlen : r < h.length := by
    rcases List.getElem?_eq_some_iff.mp hr with ⟨hh, _⟩
    exact hh
  constructor
  · intro hc
    simp only [heapLocatorCall, hr, Option.map_some'] at hc
    cases he : (Locator.locator d s).result with
    | ok d0 =>
        rw [he] at hc
        simp only [Option.some.injEq, Prod.mk.injEq, Except.ok.injEq] at hc
        obtain ⟨hh', hlr⟩ := hc
        subst hh'
        subst hlr
        exact ⟨by rw [List.getElem?_append_left hlen]; exact hr, by omega⟩
    | error e =>
        rw [he] at hc
        simp at hc
  · intro hc
    simp only [heapTimeoutCall, hr, Option.map_some'] at hc
    cases he : (Locator.timeout d ms).result with
    | ok d0 =>
        rw [he] at hc
        simp only [Option.some.injEq, Prod.mk.injEq, Except.ok.injEq] at hc
        obtain ⟨hh', hlr⟩ := hc
        subst hh'
        subst hlr
        exact ⟨by rw [List.getElem?_append_left hlen]; exact hr, by omega⟩
    | error e =>
        rw [he] at hc
        simp at hc

theorem chaining_never_mutates_witness :
    (([{ client := 0, selector_chain := ["window"], timeout_ms := some 7 }] :
        List Locator)[0]? = some { client := 0, selector_chain := ["window"], timeout_ms := some 7 }) ∧
    ((heapLocatorCall [{ client := 0, selector_chain := ["window"], timeout_ms := some 7 }] 0
        (PyVal.vStr "button") =
        some ([{ client := 0, selector_chain := ["window"], timeout_ms := some 7 },
               { client := 0, selector_chain := ["window", "button"], timeout_ms := some 7 }],
              Except.ok 1) →
      ([{ client := 0, selector_chain := ["window"], timeout_ms := some 7 },
        { client := 0, selector_chain := ["window", "button"], timeout_ms := some 7 }] :
        List Locator)[0]? = some { client := 0, selector_chain := ["window"], timeout_ms := some 7 } ∧
      (1 : Nat) ≠ 0) ∧
     (heapTimeoutCall [{ client := 0, selector_chain := ["window"], timeout_ms := some 7 }] 0
        (PyVal.vInt 9) =
        some ([{ client := 0, selector_chain := ["window"], timeout_ms := some 7 },
               { client := 0, selector_chain := ["window"], timeout_ms := some 9 }],
              Except.ok 1) →
      ([{ client := 0, selector_chain := ["window"], timeout_ms := some 7 },
        { client := 0, selector_chain := ["window"], timeout_ms := some 9 }] :
        List Locator)[0]? = some { client := 0, selector_chain := ["window"], timeout_ms := some 7 } ∧
      (1 : Nat) ≠ 0)) :=
  ⟨rfl, chaining_never_mutates _ 0 _ (PyVal.vStr "button") (PyVal.vInt 9) _ _ 1 1 rfl⟩

/-- The claim's side condition for `Locator.timeout`: the argument is a
positive integer. Stated as its own definition so the validation behaviour
of the code can be compared against it. -/
def isPositiveInt : PyVal → Bool
  | PyVal.vInt n => decide (0 < n)
  | _ => false

/-- C10: `Locator.timeout(ms)` raises ValueError exactly when `ms` is not a
positive integer, and in the error case the heap is unchanged: no new
Locator is allocated and the receiver keeps its state. -/
theorem timeout_valueerror_iff (l : Locator) (ms : PyVal) (h : List Locator) (r : Nat)
    (h' : List Locator) (e : PyError) (hr : h[r]? = some l) :
    ((Locator.timeout l ms).result =
        Except.error (PyError.valueError "Timeout must be a positive integer in milliseconds.") ↔
      isPositiveInt ms = false) ∧
    (heapTimeoutCall h r ms = some (h', Except.error e) → h' = h) := by
  constructor
  · cases ms with
    | vInt n =>
        by_cases hn : n ≤ 0
        · simp [Locator.timeout, isPositiveInt, hn]
        · simp [Locator.timeout, isPositiveInt, hn]
    | vStr s => simp [Locator.timeout, isPositiveInt]
    | vNone => simp [Locator.timeout, isPositiveInt]
    | vOther => simp [Locator.timeout, isPositiveInt]
  · intro hc
    simp only [heapTimeoutCall, hr, Option.map_some'] at hc
    cases he : (Locator.timeout l ms).result with
    | ok d0 =>
        rw [he] at hc
        simp at hc
    | error e0 =>
        rw [he] at hc
        simp only [Option.some.injEq, Prod.mk.injEq, Except.error.injEq] at hc
        exact hc.1.symm

theorem timeout_valueerror_iff_witness :
    (([{ client := 0, selector_chain := ["window"], timeout_ms := none }] :
        List Locator)[0]? = some { client := 0, selector_chain := ["window"], timeout_ms := none }) ∧
    (((Locator.timeout { client := 0, selector_chain := ["window"], timeout_ms := none }
          (PyVal.vInt 0)).result =
        Except.error (PyError.valueError "Timeout must be a positive integer in milliseconds.") ↔
      isPositiveInt (PyVal.vInt 0) = false) ∧
     (heapTimeoutCall [{ client := 0, selector_chain := ["window"], timeout_ms := none }] 0
        (PyVal.vInt 0) =
        some ([{ client := 0, selector_chain := ["window"], timeout_ms := none }],
              Except.error (PyError.valueError "Timeout must be a positive integer in milliseconds.")) →
      ([{ client := 0, selector_chain := ["window"], timeout_ms := none }] : List Locator) =
        [{ client := 0, selector_chain := ["window"], timeout_ms := none }])) :=
  ⟨rfl, timeout_valueerror_iff _ (PyVal.vInt 0) _ 0 _
    (PyError.valueError "Timeout must be a positive integer in milliseconds.") rfl⟩

/-- `models.py` `ElementResponse` (fields beyond `role` optional). -/
structure ElementResponse where
  role : String
  label : Option String
  id : Option String
deriving DecidableEq, Repr

/-- `models.py` `ElementsResponse`: holds a list of elements. -/
structure ElementsResponse where
  elements : List ElementResponse
deriving DecidableEq, Repr

/-- The response dataclass a client method asks `_make_request` to build,
named after the classes in `models.py` / `client.py`. -/
inductive ResponseModel where
  | basicResponse
  | booleanResponse
  | textResponse
  | elementResponse
  | elementsResponse
  | clickResponse
  | attributesResponse
  | boundsResponse
  | exploreResponse
deriving DecidableEq, Repr

/-- `client.py` `ChainedRequestWithTimeout`: `ChainedRequest` plus
`timeout_ms: Optional[int]`. -/
structure ChainedRequestWithTimeout where
  selector_chain : List String
  timeout_ms : Option Int
deriving DecidableEq, Repr

/-- `asdict` field order for `ChainedRequestWithTimeout`. -/
def ChainedRequestWithTimeout.asdict (p : ChainedRequestWithTimeout) :
    List (String × JsonVal) :=
  [("selector_chain", JsonVal.strList p.selector_chain),
   ("timeout_ms", optIntJson p.timeout_ms)]

/-- `client.py` `TypeTextRequestWithTimeout`. -/
structure TypeTextRequestWithTimeout where
  selector_chain : List String
  text : String
  timeout_ms : Option Int
deriving DecidableEq, Repr

/-- `asdict` field order for `TypeTextRequestWithTimeout`. -/
def TypeTextRequestWithTimeout.asdict (p : TypeTextRequestWithTimeout) :
    List (String × JsonVal) :=
  [("selector_chain", JsonVal.strList p.selector_chain),
   ("text", JsonVal.str p.text),
   ("timeout_ms", optIntJson p.timeout_ms)]

/-- `client.py` `GetTextRequestWithTimeout`. -/
structure GetTextRequestWithTimeout where
  selector_chain : List String
  max_depth : Option Int
  timeout_ms : Option Int
deriving DecidableEq, Repr

/-- `asdict` field order for `GetTextRequestWithTimeout`. -/
def GetTextRequestWithTimeout.asdict (p : GetTextRequestWithTimeout) :
    List (String × JsonVal) :=
  [("selector_chain", JsonVal.strList p.selector_chain),
   ("max_depth", optIntJson p.max_depth),
   ("timeout_ms", optIntJson p.timeout_ms)]

/-- `client.py` `PressKeyRequestWithTimeout`. -/
structure PressKeyRequestWithTimeout where
  selector_chain : List String
  key : String
  timeout_ms : Option Int
deriving DecidableEq, Repr

/-- `asdict` field order for `PressKeyRequestWithTimeout`. -/
def PressKeyRequestWithTimeout.asdict (p : PressKeyRequestWithTimeout) :
    List (String × JsonVal) :=
  [("selector_chain", JsonVal.strList p.selector_chain),
   ("key", JsonVal.str p.key),
   ("timeout_ms", optIntJson p.timeout_ms)]

/-- `models.py` `ExpectRequest`: `ChainedRequest` plus `timeout_ms`. -/
structure ExpectRequest where
  selector_chain : List String
  timeout_ms : Option Int
deriving DecidableEq, Repr

/-- `asdict` field order for `ExpectRequest`. -/
def ExpectRequest.asdict (p : ExpectRequest) : List (String × JsonVal) :=
  [("selector_chain", JsonVal.strList p.selector_chain),
   ("timeout_ms", optIntJson p.timeout_ms)]

/-- `models.py` `ExpectTextRequest`. -/
structure ExpectTextRequest where
  selector_chain : List String
  expected_text : String
  timeout_ms : Option Int
  max_depth : Option Int
deriving DecidableEq, Repr

/-- `asdict` field order for `ExpectTextRequest`. -/
def ExpectTextRequest.asdict (p : ExpectTextRequest) : List (String × JsonVal) :=
  [("selector_chain", JsonVal.strList p.selector_chain),
   ("expected_text", JsonVal.str p.expected_text),
   ("timeout_ms", optIntJson p.timeout_ms),
   ("max_depth", optIntJson p.max_depth)]

/-- `client.py` `ExploreRequestWithTimeout`. -/
structure ExploreRequestWithTimeout where
  selector_chain : List String
  timeout_ms : Option Int
deriving DecidableEq, Repr

/-- `asdict` field order for `ExploreRequestWithTimeout`. -/
def ExploreRequestWithTimeout.asdict (p : ExploreRequestWithTimeout) :
    List (String × JsonVal) :=
  [("selector_chain", JsonVal.strList p.selector_chain),
   ("timeout_ms", optIntJson p.timeout_ms)]

/-- A call a `Locator` method hands to `self._client._make_request`:
endpoint, payload dataclass, and expected response model. -/
structure ApiCall (π : Type) where
  endpoint : String
  payload : π
  response_model : ResponseModel
deriving Repr

/-- `Locator.first()`. -/
def Locator.first (l : Locator) : ApiCall ChainedRequestWithTimeout :=
  { endpoint := "/first"
  , payload := { selector_chain := l.selector_chain, timeout_ms := l.timeout_ms }
  , response_model := ResponseModel.elementResponse }

/-- `Locator.all()`. -/
def Locator.all (l : Locator) : ApiCall ChainedRequestWithTimeout :=
  { endpoint := "/all"
  , payload := { selector_chain := l.selector_chain, timeout_ms := l.timeout_ms }
  , response_model := ResponseModel.elementsResponse }

/-- `Locator.click()`. -/
def Locator.click (l : Locator) : ApiCall ChainedRequestWithTimeout :=
  { endpoint := "/click"
  , payload := { selector_chain := l.selector_chain, timeout_ms := l.timeout_ms }
  , response_model := ResponseModel.clickResponse }

/-- `Locator.type_text(text)`. -/
def Locator.type_text (l : Locator) (text : String) : ApiCall TypeTextRequestWithTimeout :=
  { endpoint := "/type_text"
  , payload := { selector_chain := l.selector_chain, text := text, timeout_ms := l.timeout_ms }
  , response_model := ResponseModel.basicResponse }

/-- `Locator.get_text(max_depth)`. -/
def Locator.get_text (l : Locator) (max_depth : Option Int) : ApiCall GetTextRequestWithTimeout :=
  { endpoint := "/get_text"
  , payload := { selector_chain := l.selector_chain, max_depth := max_depth
               , timeout_ms := l.timeout_ms }
  , response_model := ResponseModel.textResponse }

/-- `Locator.get_attributes()`. -/
def Locator.get_attributes (l : Locator) : ApiCall ChainedRequestWithTimeout :=
  { endpoint := "/get_attributes"
  , payload := { selector_chain := l.selector_chain, timeout_ms := l.timeout_ms }
  , response_model := ResponseModel.attributesResponse }

/-- `Locator.get_bounds()`. -/
def Locator.get_bounds (l : Locator) : ApiCall ChainedRequestWithTimeout :=
  { endpoint := "/get_bounds"
  , payload := { selector_chain := l.selector_chain, timeout_ms := l.timeout_ms }
  , response_model := ResponseModel.boundsResponse }

/-- `Locator.is_visible()` (the request it issues). -/
def Locator.is_visible (l : Locator) : ApiCall ChainedRequestWithTimeout :=
  { endpoint := "/is_visible"
  , payload := { selector_chain := l.selector_chain, timeout_ms := l.timeout_ms }
  , response_model := ResponseModel.booleanResponse }

/-- `Locator.press_key(key)`. -/
def Locator.press_key (l : Locator) (key : String) : ApiCall PressKeyRequestWithTimeout :=
  { endpoint := "/press_key"
  , payload := { selector_chain := l.selector_chain, key := key, timeout_ms := l.timeout_ms }
  , response_model := ResponseModel.basicResponse }

/-- `Locator.expect_visible(timeout)`: effective timeout is the explicit
argument if given, else the locator's own timeout
(`timeout if timeout is not None else self._timeout_ms`). -/
def Locator.expect_visible (l : Locator) (timeout : Option Int) : ApiCall ExpectRequest :=
  { endpoint := "/expect_visible"
  , payload := { selector_chain := l.selector_chain
               , timeout_ms := match timeout with
                               | some t => some t
                               | none => l.timeout_ms }
  , response_model := ResponseModel.elementResponse }

/-- `Locator.expect_enabled(timeout)`. -/
def Locator.expect_enabled (l : Locator) (timeout : Option Int) : ApiCall ExpectRequest :=
  { endpoint := "/expect_enabled"
  , payload := { selector_chain := l.selector_chain
               , timeout_ms := match timeout with
                               | some t => some t
                               | none => l.timeout_ms }
  , response_model := ResponseModel.elementResponse }

/-- `Locator.expect_text_equals(expected_text, max_depth, timeout)`. -/
def Locator.expect_text_equals (l : Locator) (expected_text : String)
    (max_depth : Option Int) (timeout : Option Int) : ApiCall ExpectTextRequest :=
  { endpoint := "/expect_text_equals"
  , payload := { selector_chain := l.selector_chain
               , expected_text := expected_text
               , timeout_ms := match timeout with
                               | some t => some t
                               | none => l.timeout_ms
               , max_depth := max_depth }
  , response_model := ResponseModel.elementResponse }

/-- `Locator.explore()`. -/
def Locator.explore (l : Locator) : ApiCall ExploreRequestWithTimeout :=
  { endpoint := "/explore"
  , payload := { selector_chain := l.selector_chain, timeout_ms := l.timeout_ms }
  , response_model := ResponseModel.exploreResponse }

/-- C7: `Locator.first()` and `Locator.all()` build identical payloads (same
selector chain, same timeout), differing only in the endpoint and the response
model: `/first` yields one ElementResponse, `/all` an ElementsResponse. -/
theorem first_all_identical_payload (l : Locator) :
    (Locator.first l).payload = (Locator.all l).payload ∧
    (Locator.first l).payload.selector_chain = l.selector_chain ∧
    (Locator.first l).payload.timeout_ms = l.timeout_ms ∧
    (Locator.first l).endpoint = "/first" ∧
    (Locator.all l).endpoint = "/all" ∧
    (Locator.first l).endpoint ≠ (Locator.all l).endpoint ∧
    (Locator.first l).response_model = ResponseModel.elementResponse ∧
    (Locator.all l).response_model = ResponseModel.elementsResponse ∧
    (Locator.first l).response_model ≠ (Locator.all l).response_model := by
  refine ⟨rfl, rfl, rfl, rfl, rfl, ?_, rfl, rfl, ?_⟩
  · show ("/first" : String) ≠ "/all"
    decide
  · show ResponseModel.elementResponse ≠ ResponseModel.elementsResponse
    decide

/-- C8: for the expectation calls, the `timeout_ms` sent is the explicit
argument when given, else the locator's own timeout; when both are absent the
serialized request carries no `timeout_ms` key at all. -/
theorem expect_timeout_priority (l : Locator) (t : Int) (md : Option Int) (txt : String) :
    ((Locator.expect_visible l (some t)).payload.timeout_ms = some t ∧
     (Locator.expect_visible l none).payload.timeout_ms = l.timeout_ms) ∧
    ((Locator.expect_enabled l (some t)).payload.timeout_ms = some t ∧
     (Locator.expect_enabled l none).payload.timeout_ms = l.timeout_ms) ∧
    ((Locator.expect_text_equals l txt md (some t)).payload.timeout_ms = some t ∧
     (Locator.expect_text_equals l txt md none).payload.timeout_ms = l.timeout_ms) ∧
    (l.timeout_ms = none →
      "timeout_ms" ∉
        (filterNone (ExpectRequest.asdict (Locator.expect_visible l none).payload)).map
          Prod.fst) := by
  refine ⟨⟨rfl, rfl⟩, ⟨rfl, rfl⟩, ⟨rfl, rfl⟩, ?_⟩
  intro hnone
  simp [Locator.expect_visible, ExpectRequest.asdict, filterNone, hnone, optIntJson, isNotNone]

theorem expect_timeout_priority_witness :
    ((Locator.expect_visible { client := 0, selector_chain := ["window"], timeout_ms := none }
        (some 250)).payload.timeout_ms = some 250 ∧
     (Locator.expect_visible { client := 0, selector_chain := ["window"], timeout_ms := none }
        none).payload.timeout_ms =
       ({ client := 0, selector_chain := ["window"], timeout_ms := none } : Locator).timeout_ms) ∧
    ((Locator.expect_enabled { client := 0, selector_chain := ["window"], timeout_ms := none }
        (some 250)).payload.timeout_ms = some 250 ∧
     (Locator.expect_enabled { client := 0, selector_chain := ["window"], timeout_ms := none }
        none).payload.timeout_ms =
       ({ client := 0, selector_chain := ["window"], timeout_ms := none } : Locator).timeout_ms) ∧
    ((Locator.expect_text_equals { client := 0, selector_chain := ["window"], timeout_ms := none }
        "ok" (some 2) (some 250)).payload.timeout_ms = some 250 ∧
     (Locator.expect_text_equals { client := 0, selector_chain := ["window"], timeout_ms := none }
        "ok" (some 2) none).payload.timeout_ms =
       ({ client := 0, selector_chain := ["window"], timeout_ms := none } : Locator).timeout_ms) ∧
    (({ client := 0, selector_chain := ["window"], timeout_ms := none } : Locator).timeout_ms = none →
      "timeout_ms" ∉
        (filterNone (ExpectRequest.asdict
          (Locator.expect_visible
            { client := 0, selector_chain := ["window"], timeout_ms := none } none).payload)).map
          Prod.fst) :=
  expect_timeout_priority { client := 0, selector_chain := ["window"], timeout_ms := none }
    250 (some 2) "ok"

/-- C9: the dictionary `_make_request` serializes from a dataclass payload
never contains a None-valued key; in particular an unset `timeout_ms` on a
`first()` payload and an unset `max_depth` on a `get_text()` payload are
omitted from the serialized request. -/
theorem asdict_drops_none_fields (fields : List (String × JsonVal)) (k : String)
    (v : JsonVal) (l : Locator) (md : Option Int)
    (hmem : (k, v) ∈ filterNone fields) :
    v ≠ JsonVal.null ∧
    (l.timeout_ms = none →
      "timeout_ms" ∉
        (filterNone (ChainedRequestWithTimeout.asdict (Locator.first l).payload)).map
          Prod.fst) ∧
    (md = none →
      "max_depth" ∉
        (filterNone (GetTextRequestWithTimeout.asdict (Locator.get_text l md).payload)).map
          Prod.fst) := by
  refine ⟨?_, ?_, ?_⟩
  · have := List.of_mem_filter hmem
    intro hv
    rw [hv] at this
    simp [isNotNone] at this
  · intro hnone
    simp [Locator.first, ChainedRequestWithTimeout.asdict, filterNone, hnone, optIntJson,
      isNotNone]
  · intro hnone
    cases hl : l.timeout_ms with
    | none =>
        simp [Locator.get_text, GetTextRequestWithTimeout.asdict, filterNone, hnone, hl,
          optIntJson, isNotNone]
    | some tm =>
        simp [Locator.get_text, GetTextRequestWithTimeout.asdict, filterNone, hnone, hl,
          optIntJson, isNotNone]

theorem asdict_drops_none_fields_witness :
    (("selector_chain", JsonVal.strList ["window"]) ∈
      filterNone [("selector_chain", JsonVal.strList ["window"]), ("timeout_ms", JsonVal.null)]) ∧
    (JsonVal.strList ["window"] ≠ JsonVal.null ∧
     (({ client := 0, selector_chain := ["window"], timeout_ms := none } : Locator).timeout_ms = none →
       "timeout_ms" ∉
         (filterNone (ChainedRequestWithTimeout.asdict
           (Locator.first { client := 0, selector_chain := ["window"], timeout_ms := none }).payload)).map
           Prod.fst) ∧
     ((none : Option Int) = none →
       "max_depth" ∉
         (filterNone (GetTextRequestWithTimeout.asdict
           (Locator.get_text { client := 0, selector_chain := ["window"], timeout_ms := none }
             none).payload)).map
           Prod.fst)) :=
  ⟨by decide,
   asdict_drops_none_fields
     [("selector_chain", JsonVal.strList ["window"]), ("timeout_ms", JsonVal.null)]
     "selector_chain" (JsonVal.strList ["window"])
     { client := 0, selector_chain := ["window"], timeout_ms := none } none (by decide)⟩

/-- One chaining step of the public API: a `locator.locator(s)` call or a
`locator.timeout(ms)` call. -/
inductive LocOp where
  | loc (s : PyVal)
  | timeo (ms : PyVal)
deriving DecidableEq, Repr

/-- Apply one chaining call to a locator (raised exceptions propagate). -/
def applyOp (l : Locator) : LocOp → Except PyError Locator
  | LocOp.loc s => (Locator.locator l s).result
  | LocOp.timeo ms => (Locator.timeout l ms).result

/-- A locator reached through the public API: `client.locator(s0)` followed by
the chaining calls in `ops`, in order. -/
def buildLocator (client : Nat) (s0 : PyVal) (ops : List LocOp) : Except PyError Locator :=
  match (DesktopUseClient.locator client s0).result with
  | Except.error e => Except.error e
  | Except.ok l => ops.foldlM applyOp l

/-- The selector a chaining step contributes to the chain. -/
def opSelectors : LocOp → List String
  | LocOp.loc (PyVal.vStr s) => [s]
  | _ => []

/-- The selectors contributed by a sequence of chaining steps, in call order. -/
def opsSelectors : List LocOp → List String
  | [] => []
  | op :: rest => opSelectors op ++ opsSelectors rest

/-- All strings in the list are non-empty. -/
def allNonempty (xs : List String) : Bool :=
  xs.all (fun s => !(s == ""))

theorem applyOp_ok_chain (op : LocOp) (l lm : Locator) (h : applyOp l op = Except.ok lm) :
    lm.selector_chain = l.selector_chain ++ opSelectors op ∧
    (allNonempty l.selector_chain = true → allNonempty lm.selector_chain = true) := by
  cases op with
  | loc s =>
      cases s with
      | vStr str =>
          by_cases hstr : str = ""
          · simp [applyOp, Locator.locator, hstr] at h
          · simp [applyOp, Locator.locator, hstr] at h
            subst h
            refine ⟨rfl, ?_⟩
            intro hall
            simp [allNonempty, List.all_append, hstr] at hall ⊢
            exact hall
      | vInt n => simp [applyOp, Locator.locator] at h
      | vNone => simp [applyOp, Locator.locator] at h
      | vOther => simp [applyOp, Locator.locator] at h
  | timeo ms =>
      cases ms with
      | vInt n =>
          by_cases hn : n ≤ 0
          · simp [applyOp, Locator.timeout, hn] at h
          · simp [applyOp, Locator.timeout, hn] at h
            subst h
            exact ⟨by simp [opSelectors], fun hall => hall⟩
      | vStr s => simp [applyOp, Locator.timeout] at h
      | vNone => simp [applyOp, Locator.timeout] at h
      | vOther => simp [applyOp, Locator.timeout] at h

theorem foldlM_applyOp_chain (ops : List LocOp) : ∀ (l l' : Locator),
    List.foldlM applyOp l ops = Except.ok l' →
    l'.selector_chain = l.selector_chain ++ opsSelectors ops ∧
    (allNonempty l.selector_chain = true → allNonempty l'.selector_chain = true) := by
  induction ops with
  | nil =>
      intro l l' hf
      simp only [List.foldlM_nil] at hf
      cases hf
      simp [opsSelectors]
  | cons op rest ih =>
      intro l l' hf
      rw [List.foldlM_cons] at hf
      cases ha : applyOp l op with
      | error e =>
          rw [ha] at hf
          simp [Bind.bind, Except.bind] at hf
      | ok lm =>
          rw [ha] at hf
          simp only [Bind.bind, Except.bind] at hf
          have hstep := applyOp_ok_chain op l lm ha
          have hrest := ih lm l' hf
          refine ⟨?_, ?_⟩
          · rw [hrest.1, hstep.1, opsSelectors, List.append_assoc]
          · intro hall
            exact hrest.2 (hstep.2 hall)

/-- `Locator.mouse_drag(start_x, start_y, end_x, end_y)`: delegates to
`client.mouse_drag`, which builds a plain dict payload (passed through
`_make_request` unfiltered) carrying the locator's chain and timeout. -/
def Locator.mouse_drag (l : Locator) (start_x start_y end_x end_y : Int) :
    ApiCall (List (String × JsonVal)) :=
  { endpoint := "/mouse_drag"
  , payload := [("selector_chain", JsonVal.strList l.selector_chain),
                ("start_x", JsonVal.int start_x),
                ("start_y", JsonVal.int start_y),
                ("end_x", JsonVal.int end_x),
                ("end_y", JsonVal.int end_y),
                ("timeout_ms", optIntJson l.timeout_ms)]
  , response_model := ResponseModel.basicResponse }

/-- `Locator.mouse_click_and_hold(x, y)`: delegates to
`client.mouse_click_and_hold` (plain dict payload). -/
def Locator.mouse_click_and_hold (l : Locator) (x y : Int) :
    ApiCall (List (String × JsonVal)) :=
  { endpoint := "/mouse_click_and_hold"
  , payload := [("selector_chain", JsonVal.strList l.selector_chain),
                ("x", JsonVal.int x),
                ("y", JsonVal.int y),
                ("timeout_ms", optIntJson l.timeout_ms)]
  , response_model := ResponseModel.basicResponse }

/-- `Locator.mouse_move(x, y)`: delegates to `client.mouse_move`
(plain dict payload). -/
def Locator.mouse_move (l : Locator) (x y : Int) :
    ApiCall (List (String × JsonVal)) :=
  { endpoint := "/mouse_move"
  , payload := [("selector_chain", JsonVal.strList l.selector_chain),
                ("x", JsonVal.int x),
                ("y", JsonVal.int y),
                ("timeout_ms", optIntJson l.timeout_ms)]
  , response_model := ResponseModel.basicResponse }

/-- `Locator.mouse_release()`: delegates to `client.mouse_release`
(plain dict payload). -/
def Locator.mouse_release (l : Locator) : ApiCall (List (String × JsonVal)) :=
  { endpoint := "/mouse_release"
  , payload := [("selector_chain", JsonVal.strList l.selector_chain),
                ("timeout_ms", optIntJson l.timeout_ms)]
  , response_model := ResponseModel.basicResponse }

/-- C4: any locator built through the public API — `client.locator(s0)`
followed by chaining calls — has a non-empty chain of non-empty selector
strings, in exactly the order of the `locator` calls, and every action or
expectation request built from it carries that chain unchanged. -/
theorem reachable_locator_invariant (client : Nat) (s0 : String) (ops : List LocOp)
    (l : Locator) (txt key : String) (md tmo : Option Int) (sx sy ex ey : Int)
    (hb : buildLocator client (PyVal.vStr s0) ops = Except.ok l) :
    l.selector_chain = s0 :: opsSelectors ops ∧
    l.selector_chain ≠ [] ∧
    allNonempty l.selector_chain = true ∧
    (Locator.first l).payload.selector_chain = l.selector_chain ∧
    (Locator.all l).payload.selector_chain = l.selector_chain ∧
    (Locator.click l).payload.selector_chain = l.selector_chain ∧
    (Locator.type_text l txt).payload.selector_chain = l.selector_chain ∧
    (Locator.get_text l md).payload.selector_chain = l.selector_chain ∧
    (Locator.get_attributes l).payload.selector_chain = l.selector_chain ∧
    (Locator.get_bounds l).payload.selector_chain = l.selector_chain ∧
    (Locator.is_visible l).payload.selector_chain = l.selector_chain ∧
    (Locator.press_key l key).payload.selector_chain = l.selector_chain ∧
    (Locator.expect_visible l tmo).payload.selector_chain = l.selector_chain ∧
    (Locator.expect_enabled l tmo).payload.selector_chain = l.selector_chain ∧
    (Locator.expect_text_equals l txt md tmo).payload.selector_chain = l.selector_chain ∧
    (Locator.explore l).payload.selector_chain = l.selector_chain ∧
    (Locator.mouse_drag l sx sy ex ey).payload.lookup "selector_chain" =
      some (JsonVal.strList l.selector_chain) ∧
    (Locator.mouse_click_and_hold l sx sy).payload.lookup "selector_chain" =
      some (JsonVal.strList l.selector_chain) ∧
    (Locator.mouse_move l sx sy).payload.lookup "selector_chain" =
      some (JsonVal.strList l.selector_chain) ∧
    (Locator.mouse_release l).payload.lookup "selector_chain" =
      some (JsonVal.strList l.selector_chain) := by
  by_cases hs0 : s0 = ""
  · simp [buildLocator, DesktopUseClient.locator, hs0] at hb
  · have hb' : List.foldlM applyOp
        { client := client, selector_chain := [s0], timeout_ms := none } ops =
          Except.ok l := by
      simpa [buildLocator, DesktopUseClient.locator, hs0] using hb
    have hfold := foldlM_applyOp_chain ops
      { client := client, selector_chain := [s0], timeout_ms := none } l hb'
    have hchain : l.selector_chain = s0 :: opsSelectors ops := by
      rw [hfold.1]
      rfl
    have hne : allNonempty [s0] = true := by
      simp [allNonempty, hs0]
    refine ⟨hchain, ?_, hfold.2 hne, rfl, rfl, rfl, rfl, rfl, rfl, rfl, rfl, rfl, rfl, rfl,
      rfl, rfl, rfl, rfl, rfl, rfl⟩
    rw [hchain]
    exact List.cons_ne_nil _ _

theorem reachable_locator_invariant_witness :
    buildLocator 0 (PyVal.vStr "window")
        [LocOp.loc (PyVal.vStr "pane"), LocOp.timeo (PyVal.vInt 100),
         LocOp.loc (PyVal.vStr "button")] =
      Except.ok { client := 0, selector_chain := ["window", "pane", "button"], timeout_ms := some 100 } ∧
    ({ client := 0, selector_chain := ["window", "pane", "button"], timeout_ms := some 100 } : Locator).selector_chain =
      "window" :: opsSelectors
        [LocOp.loc (PyVal.vStr "pane"), LocOp.timeo (PyVal.vInt 100),
         LocOp.loc (PyVal.vStr "button")] ∧
    allNonempty ["window", "pane", "button"] = true ∧
    (Locator.first { client := 0, selector_chain := ["window", "pane", "button"], timeout_ms := some 100 }).payload.selector_chain =
      ["window", "pane", "button"] ∧
    (Locator.mouse_drag { client := 0, selector_chain := ["window", "pane", "button"], timeout_ms := some 100 } 1 2 3 4).payload.lookup "selector_chain" =
      some (JsonVal.strList ["window", "pane", "button"]) ∧
    (Locator.mouse_release { client := 0, selector_chain := ["window", "pane", "button"], timeout_ms := some 100 }).payload.lookup "selector_chain" =
      some (JsonVal.strList ["window", "pane", "button"]) :=
  ⟨rfl,
   (reachable_locator_invariant 0 "window"
     [LocOp.loc (PyVal.vStr "pane"), LocOp.timeo (PyVal.vInt 100),
      LocOp.loc (PyVal.vStr "button")]
     { client := 0, selector_chain := ["window", "pane", "button"], timeout_ms := some 100 }
     "hello" "Enter" none none 1 2 3 4 rfl).1,
   by decide, rfl, rfl, rfl⟩

/-- The claim's notion of a malformed selector argument: empty string or not a
string at all. -/
def malformedSelector : PyVal → Bool
  | PyVal.vStr s => s == ""
  | _ => true

/-- C5: a malformed (empty or non-string) selector makes both
`DesktopUseClient.locator` and `Locator.locator` raise ValueError at once,
with no HTTP request issued (so nothing is sent to the backend and nothing is
retried). -/
theorem malformed_selector_immediate_valueerror (client : Nat) (l : Locator) (s : PyVal)
    (hm : malformedSelector s = true) :
    (DesktopUseClient.locator client s).result =
      Except.error (PyError.valueError "Initial selector must be a non-empty string.") ∧
    (DesktopUseClient.locator client s).posts = [] ∧
    (Locator.locator l s).result =
      Except.error (PyError.valueError "Nested selector must be a non-empty string.") ∧
    (Locator.locator l s).posts = [] := by
  cases s with
  | vStr str =>
      simp only [malformedSelector, beq_iff_eq] at hm
      exact ⟨by simp [DesktopUseClient.locator, hm], rfl,
             by simp [Locator.locator, hm], rfl⟩
  | vInt n => exact ⟨rfl, rfl, rfl, rfl⟩
  | vNone => exact ⟨rfl, rfl, rfl, rfl⟩
  | vOther => exact ⟨rfl, rfl, rfl, rfl⟩

theorem malformed_selector_immediate_valueerror_witness :
    malformedSelector (PyVal.vStr "") = true ∧
    ((DesktopUseClient.locator 0 (PyVal.vStr "")).result =
       Except.error (PyError.valueError "Initial selector must be a non-empty string.") ∧
     (DesktopUseClient.locator 0 (PyVal.vStr "")).posts = [] ∧
     (Locator.locator { client := 0, selector_chain := ["window"], timeout_ms := none }
        (PyVal.vStr "")).result =
       Except.error (PyError.valueError "Nested selector must be a non-empty string.") ∧
     (Locator.locator { client := 0, selector_chain := ["window"], timeout_ms := none }
        (PyVal.vStr "")).posts = []) :=
  ⟨by decide,
   malformed_selector_immediate_valueerror 0
     { client := 0, selector_chain := ["window"], timeout_ms := none }
     (PyVal.vStr "") (by decide)⟩

/-- Outcome of decoding a 2xx response body into the response model inside
`_make_request`: success (including the empty-content default paths), a
JSONDecodeError/TypeError, or a broader instantiation failure (the 2xx branch
catches every exception, so these three cases are exhaustive there). -/
inductive DecodeOutcome where
  | modelOk
  | decodeError (e : String)
  | instantiationError (e : String)
deriving DecidableEq, Repr

/-- What `response.json()` yields for a non-2xx body: parse failure
(JSONDecodeError, caught), a JSON object with an optional string `message`
key, or JSON that is not an object (list, string, number, null) — on which
`error_data.get` raises AttributeError, caught by none of the handlers. -/
inductive ErrorBody where
  | notJson
  | jsonDict (message : Option String)
  | jsonNonDict
deriving DecidableEq, Repr

/-- An HTTP response as `_make_request` observes it: status code, raw text,
the body as the non-2xx error path reads it, and how building the response
model would go on the 2xx path. -/
structure HttpResponse where
  status : Nat
  text : String
  body : ErrorBody
  decode : DecodeOutcome
deriving DecidableEq, Repr

/-- Transport-level outcome of one `session.post`: a response (any status),
a `requests.exceptions.ConnectionError`, or another `RequestException`. -/
inductive PostResult where
  | success (resp : HttpResponse)
  | connectionFailed (details : String)
  | requestFailed (details : String)
deriving DecidableEq, Repr

/-- The payload argument of `_make_request`: a dataclass instance (kept as its
`asdict` field list), a plain dict, None / empty dict, or anything else
(rejected with TypeError). -/
inductive Payload where
  | dataclassFields (fields : List (String × JsonVal))
  | dict (d : List (String × JsonVal))
  | emptyNone
  | invalid
deriving DecidableEq, Repr

/-- The payload-conversion prologue of `_make_request`: dataclasses are
serialized with the None-dropping `dict_factory`, dicts pass through, None or
an empty dict becomes an empty dict, anything else raises TypeError. -/
def payloadToDict : Payload → Except PyError (List (String × JsonVal))
  | Payload.dataclassFields f => Except.ok (filterNone f)
  | Payload.dict d => Except.ok d
  | Payload.emptyNone => Except.ok []
  | Payload.invalid =>
      Except.error (PyError.typeError "Payload must be a dataclass instance or a dictionary.")

/-- The payload is one `_make_request` accepts (does not raise TypeError on). -/
def payloadAccepted (p : Payload) : Bool :=
  match payloadToDict p with
  | Except.ok _ => true
  | Except.error _ => false

/-- The error message of a non-2xx reply on the paths where one is computed:
`response.json().get('message', response.text)` when the body is a JSON
object, the raw text when the body is not JSON. -/
def errorMessageOf (resp : HttpResponse) : String :=
  match resp.body with
  | ErrorBody.jsonDict (some m) => m
  | _ => resp.text

/-- The message of the ConnectionError raised when the POST cannot connect. -/
def connectionErrorMessage (url details : String) : String :=
  "Could not connect to Terminator server at " ++ url ++ ". Is it running? Details: " ++ details

/-- `DesktopUseClient._make_request`, over an abstract transport: returns the
result (response model value or raised exception) together with the number of
POSTs issued. The body POSTs exactly once; `attempts n` is what the transport
would do on the (n+1)-th POST, of which only `attempts 0` is ever used. On a
non-2xx reply whose body parses as non-dict JSON, `error_data.get`
(client.py line 131) raises AttributeError, which no handler catches. -/
def make_request (url : String) (payload : Payload) (attempts : Nat → PostResult) :
    Except PyError Unit × Nat :=
  match payloadToDict payload with
  | Except.error e => (Except.error e, 0)
  | Except.ok _ =>
    match attempts 0 with
    | PostResult.connectionFailed d =>
        (Except.error (PyError.connectionError (connectionErrorMessage url d)), 1)
    | PostResult.requestFailed d =>
        (Except.error (PyError.apiError ("An unexpected request error occurred: " ++ d) none), 1)
    | PostResult.success resp =>
        (if 200 ≤ resp.status ∧ resp.status < 300 then
           match resp.decode with
           | DecodeOutcome.modelOk => Except.ok ()
           | DecodeOutcome.decodeError e =>
               Except.error
                 (PyError.apiError ("Invalid JSON response or model mismatch: " ++ e)
                   (some resp.status))
           | DecodeOutcome.instantiationError e =>
               Except.error
                 (PyError.apiError ("Error creating response model: " ++ e) (some resp.status))
         else
           match resp.body with
           | ErrorBody.jsonNonDict => Except.error PyError.attributeError
           | _ => Except.error (PyError.apiError (errorMessageOf resp) (some resp.status)), 1)

/-- The call raised an ApiError (of `exceptions.py`; ConnectionError is its
subclass, distinguished here as its own constructor). -/
def raisesApiError (r : Except PyError Unit) : Bool :=
  match r with
  | Except.error (PyError.apiError _ _) => true
  | _ => false

/-- C6 counterexample: a 500 reply whose body is the JSON array `[]` is a
non-2xx server reply, yet `_make_request` does not raise an ApiError carrying
message and status — `error_data.get` raises an uncaught AttributeError. -/
theorem make_request_nondict_json_counterexample :
    (¬(200 ≤ (500 : Nat) ∧ (500 : Nat) < 300)) ∧
    (make_request "http://127.0.0.1:9375" Payload.emptyNone
      (fun _ => PostResult.success
        { status := 500, text := "[]", body := ErrorBody.jsonNonDict
        , decode := DecodeOutcome.modelOk })).1 =
      Except.error PyError.attributeError ∧
    raisesApiError (make_request "http://127.0.0.1:9375" Payload.emptyNone
      (fun _ => PostResult.success
        { status := 500, text := "[]", body := ErrorBody.jsonNonDict
        , decode := DecodeOutcome.modelOk })).1 = false := by
  refine ⟨by decide, ?_, ?_⟩ <;> rfl

/-- C6 (amended): `_make_request` POSTs exactly once (no retry); a non-2xx
reply whose body is not JSON or is a JSON object raises ApiError carrying the
server's message and the status code; a non-2xx reply whose body is non-dict
JSON raises an uncaught AttributeError; a connection failure raises
ConnectionError; any other request failure raises ApiError — so no failed
request ever produces a normal response value. -/
theorem make_request_error_paths (url : String) (payload : Payload)
    (attempts : Nat → PostResult) (resp : HttpResponse) (d1 d2 : String)
    (hp : payloadAccepted payload = true) :
    (make_request url payload attempts).2 = 1 ∧
    (attempts 0 = PostResult.success resp → ¬(200 ≤ resp.status ∧ resp.status < 300) →
      resp.body ≠ ErrorBody.jsonNonDict →
      (make_request url payload attempts).1 =
        Except.error (PyError.apiError (errorMessageOf resp) (some resp.status))) ∧
    (attempts 0 = PostResult.success resp → ¬(200 ≤ resp.status ∧ resp.status < 300) →
      resp.body = ErrorBody.jsonNonDict →
      (make_request url payload attempts).1 = Except.error PyError.attributeError) ∧
    (attempts 0 = PostResult.connectionFailed d1 →
      (make_request url payload attempts).1 =
        Except.error (PyError.connectionError (connectionErrorMessage url d1))) ∧
    (attempts 0 = PostResult.requestFailed d2 →
      (make_request url payload attempts).1 =
        Except.error (PyError.apiError ("An unexpected request error occurred: " ++ d2) none)) := by
  cases hp2 : payloadToDict payload with
  | error e => simp [payloadAccepted, hp2] at hp
  | ok dict =>
      refine ⟨?_, ?_, ?_, ?_, ?_⟩
      · cases ha : attempts 0 <;> simp [make_request, hp2, ha]
      · intro hsucc hnot hbody
        cases hrb : resp.body with
        | notJson =>
            simp [make_request, hp2, hsucc, hnot, hrb, errorMessageOf]
        | jsonDict m =>
            cases m <;> simp [make_request, hp2, hsucc, hnot, hrb, errorMessageOf]
        | jsonNonDict => exact absurd hrb hbody
      · intro hsucc hnot hbody
        simp [make_request, hp2, hsucc, hnot, hbody]
      · intro hconn
        simp [make_request, hp2, hconn]
      · intro hreq
        simp [make_request, hp2, hreq]

theorem make_request_error_paths_witness :
    payloadAccepted (Payload.dataclassFields
      [("selector_chain", JsonVal.strList ["window"]), ("timeout_ms", JsonVal.null)]) = true ∧
    ((make_request "http://127.0.0.1:9375"
        (Payload.dataclassFields
          [("selector_chain", JsonVal.strList ["window"]), ("timeout_ms", JsonVal.null)])
        (fun _ => PostResult.success
          { status := 500, text := "boom", body := ErrorBody.jsonDict (some "element not found")
          , decode := DecodeOutcome.modelOk })).2 = 1 ∧
     ((fun _ => PostResult.success
          { status := 500, text := "boom", body := ErrorBody.jsonDict (some "element not found")
          , decode := DecodeOutcome.modelOk } : Nat → PostResult) 0 =
        PostResult.success
          { status := 500, text := "boom", body := ErrorBody.jsonDict (some "element not found")
          , decode := DecodeOutcome.modelOk } →
      ¬(200 ≤ ({ status := 500, text := "boom", body := ErrorBody.jsonDict (some "element not found")
               , decode := DecodeOutcome.modelOk } : HttpResponse).status ∧
        ({ status := 500, text := "boom", body := ErrorBody.jsonDict (some "element not found")
         , decode := DecodeOutcome.modelOk } : HttpResponse).status < 300) →
      ({ status := 500, text := "boom", body := ErrorBody.jsonDict (some "element not found")
       , decode := DecodeOutcome.modelOk } : HttpResponse).body ≠ ErrorBody.jsonNonDict →
      (make_request "http://127.0.0.1:9375"
        (Payload.dataclassFields
          [("selector_chain", JsonVal.strList ["window"]), ("timeout_ms", JsonVal.null)])
        (fun _ => PostResult.success
          { status := 500, text := "boom", body := ErrorBody.jsonDict (some "element not found")
          , decode := DecodeOutcome.modelOk })).1 =
        Except.error (PyError.apiError
          (errorMessageOf
            { status := 500, text := "boom", body := ErrorBody.jsonDict (some "element not found")
            , decode := DecodeOutcome.modelOk })
          (some ({ status := 500, text := "boom", body := ErrorBody.jsonDict (some "element not found")
                 , decode := DecodeOutcome.modelOk } : HttpResponse).status))) ∧
     ((fun _ => PostResult.success
          { status := 500, text := "boom", body := ErrorBody.jsonDict (some "element not found")
          , decode := DecodeOutcome.modelOk } : Nat → PostResult) 0 =
        PostResult.success
          { status := 500, text := "boom", body := ErrorBody.jsonDict (some "element not found")
          , decode := DecodeOutcome.modelOk } →
      ¬(200 ≤ ({ status := 500, text := "boom", body := ErrorBody.jsonDict (some "element not found")
               , decode := DecodeOutcome.modelOk } : HttpResponse).status ∧
        ({ status := 500, text := "boom", body := ErrorBody.jsonDict (some "element not found")
         , decode := DecodeOutcome.modelOk } : HttpResponse).status < 300) →
      ({ status := 500, text := "boom", body := ErrorBody.jsonDict (some "element not found")
       , decode := DecodeOutcome.modelOk } : HttpResponse).body = ErrorBody.jsonNonDict →
      (make_request "http://127.0.0.1:9375"
        (Payload.dataclassFields
          [("selector_chain", JsonVal.strList ["window"]), ("timeout_ms", JsonVal.null)])
        (fun _ => PostResult.success
          { status := 500, text := "boom", body := ErrorBody.jsonDict (some "element not found")
          , decode := DecodeOutcome.modelOk })).1 = Except.error PyError.attributeError) ∧
     ((fun _ => PostResult.success
          { status := 500, text := "boom", body := ErrorBody.jsonDict (some "element not found")
          , decode := DecodeOutcome.modelOk } : Nat → PostResult) 0 =
        PostResult.connectionFailed "refused" →
      (make_request "http://127.0.0.1:9375"
        (Payload.dataclassFields
          [("selector_chain", JsonVal.strList ["window"]), ("timeout_ms", JsonVal.null)])
        (fun _ => PostResult.success
          { status := 500, text := "boom", body := ErrorBody.jsonDict (some "element not found")
          , decode := DecodeOutcome.modelOk })).1 =
        Except.error (PyError.connectionError
          (connectionErrorMessage "http://127.0.0.1:9375" "refused"))) ∧
     ((fun _ => PostResult.success
          { status := 500, text := "boom", body := ErrorBody.jsonDict (some "element not found")
          , decode := DecodeOutcome.modelOk } : Nat → PostResult) 0 =
        PostResult.requestFailed "oops" →
      (make_request "http://127.0.0.1:9375"
        (Payload.dataclassFields
          [("selector_chain", JsonVal.strList ["window"]), ("timeout_ms", JsonVal.null)])
        (fun _ => PostResult.success
          { status := 500, text := "boom", body := ErrorBody.jsonDict (some "element not found")
          , decode := DecodeOutcome.modelOk })).1 =
        Except.error (PyError.apiError ("An unexpected request error occurred: " ++ "oops") none))) :=
  ⟨rfl,
   make_request_error_paths "http://127.0.0.1:9375"
     (Payload.dataclassFields
       [("selector_chain", JsonVal.strList ["window"]), ("timeout_ms", JsonVal.null)])
     (fun _ => PostResult.success
       { status := 500, text := "boom", body := ErrorBody.jsonDict (some "element not found")
       , decode := DecodeOutcome.modelOk })
     { status := 500, text := "boom", body := ErrorBody.jsonDict (some "element not found")
     , decode := DecodeOutcome.modelOk }
     "refused" "oops" rfl⟩
